import Mathlib

/-!
Shallow embedding of the ACED-IDP `fhir_server` bundle pipeline
(`bundle_service/main.py`, `bundle_service/bundle_validate.py`,
`bundle_service/processing/process_bundle.py`).

Python dicts are modelled by structures holding exactly the keys the code
reads; `None` is `Option.none`; a Python exception escaping a function is
`Except.error` with a message naming the exception.  External collaborators
(the Gen3 permission check, the grip bulk delete / bulk load calls and the
elastic reindex block) are passed in as function-valued oracles, since the
code only observes their returned status / message (or, for the reindex
block, a caught exception).  `Content-Length` is modelled as an already
parsed integer (the code calls `int(...)` on the header).
-/

namespace BundleService

/-- One `OperationOutcomeIssue`: the fields the service constructs.
`details` holds the `text` of the Python `details={"text": ...}` dict when
present. -/
structure Issue where
  severity : String
  code : String
  diagnostics : String
  details : Option String := none
  deriving Repr, DecidableEq

/-- Python `str(x)` for an optional string (`str(None) = "None"`). -/
def pyStr : Option String → String
  | none => "None"
  | some s => s

/-- Python `str(errors)` for a list of strings, e.g. `['a', 'b']`. -/
def pyStrList (errors : List String) : String :=
  "[" ++ String.intercalate ", " (errors.map (fun s => "\x27" ++ s ++ "\x27")) ++ "]"

/-- Worker for `pySplit`, structurally recursive over the characters. -/
def splitCharAux (sep : Char) : List Char → List Char → List String
  | [], acc => [String.mk acc.reverse]
  | c :: rest, acc =>
      if c == sep then String.mk acc.reverse :: splitCharAux sep rest []
      else splitCharAux sep rest (c :: acc)

/-- Python `s.split(sep)` for a one-character separator (the only form the
service uses: `split("-")` and `split("/")`). -/
def pySplit (s : String) (sep : Char) : List String :=
  splitCharAux sep s.data []

/-- Hex digit, case insensitive (the pattern is compiled with
`re.IGNORECASE`, so `[\da-f]` also accepts `A`-`F`). -/
def isHexChar (c : Char) : Bool :=
  c.isDigit || ('a' ≤ c && c ≤ 'f') || ('A' ≤ c && c ≤ 'F')

/-- Character class at position `i` of the 36-character UUID form
`8-4-4-4-12`: a dash at positions 8, 13, 18, 23, a hex digit elsewhere. -/
def uuidCharOk (cs : List Char) (i : Nat) : Bool :=
  if i == 8 || i == 13 || i == 18 || i == 23 then cs.getD i ' ' == '-'
  else isHexChar (cs.getD i ' ')

/-- `bool(UUID_PATTERN.match(s))` for
`re.compile(r'^[\da-f]{8}-([\da-f]{4}-){3}[\da-f]{12}$', re.IGNORECASE)`.
Python's `$` also matches just before one trailing newline, which is why a
single trailing `'\n'` is stripped first. -/
def UUID_PATTERN_match (s : String) : Bool :=
  let cs := s.data
  let cs := if cs.getLast? == some '\n' then cs.dropLast else cs
  cs.length == 36 && (List.range 36).all (uuidCharOk cs)

/-- The fixed allow-list `valid_resource_types` from `main.py`. -/
def valid_resource_types : List String :=
  [ "ResearchStudy", "Patient", "ResearchSubject", "Substance", "Specimen",
    "Observation", "Condition", "Medication", "MedicationAdministration",
    "DocumentReference", "Task", "FamilyMemberHistory", "BodyStructure",
    "Organization" ]

/-- `MAX_REQUEST_SIZE = 50 * 1024 * 1024`. -/
def MAX_REQUEST_SIZE : Int := 50 * 1024 * 1024

/-- The fields of a parsed `entry.resource` that the service reads:
`id`, `resource_type` and the (possibly empty) `identifier` list, whose
elements are never inspected and are kept as opaque strings. -/
structure Resource where
  id : Option String
  resource_type : String
  identifier : List String
  deriving Repr, DecidableEq

/-- Stand-in for Python `str()` of the parsed resource object (only ever
embedded verbatim inside a `details.text`; no claim inspects it). -/
def pyReprResource (r : Resource) : String :=
  "id=" ++ pyStr r.id ++ " resource_type=" ++ r.resource_type

/-- The fields of `entry.request` the service reads. -/
structure RequestInfo where
  method : String
  url : Option String
  deriving Repr, DecidableEq

/-- A bundle entry as the service sees it after `BundleEntry(**entry_dict)`
succeeded (also used for the raw `entry_dict` rows handed to `process`,
which reads the same projection). -/
structure BundleEntry where
  fullUrl : Option String := none
  resource : Option Resource := none
  request : Option RequestInfo := none
  deriving Repr, DecidableEq

/-- One element of the request body's `entry` list: either pydantic
parsing raised `ValidationError` (carrying `e.json()` plus what
`entry_dict.get('resource_type')` / `entry_dict.get('id')` return), or it
produced a `BundleEntry`. -/
inductive EntryParse where
  | malformed (resource_type_key : Option String) (id_key : Option String) (details : String)
  | parsed (entry : BundleEntry)
  deriving Repr, DecidableEq

/-- A JSON value stored under the identifier block's `value` key: a string,
or any non-string value (number, bool, list, dict) — the latter survives
the `is None` test and then raises at `project_id.split("-")`. -/
inductive IdentValue where
  | str (s : String)
  | nonStr
  deriving Repr, DecidableEq

/-- The JSON value stored under the body's `identifier` key.  A dict block
carries its `system` and `value` entries (a non-string `system` compares
unequal to the project-id url exactly like a wrong string, so it is folded
into `Option String`).  Any non-dict value is kept with its truthiness: a
truthy one (e.g. the string `"x"`) raises at `identifier.get`, a falsy one
(e.g. `""`, `0`, `[]`) short-circuits the `identifier and ...` guard. -/
inductive IdentifierSlot where
  | dict (system : Option String) (value : Option IdentValue)
  | nonDict (truthy : Bool)
  deriving Repr, DecidableEq

/-- The JSON body dict, projected to the keys `validate_bundle` and
`validate_bundle_entries` read.  `emptyDict` records whether the dict is
literally `{}` (for the `body == {}` check). -/
structure Body where
  resourceType : Option String := none
  type : Option String := none
  identifier : Option IdentifierSlot := none
  entry : Option (List EntryParse) := none
  emptyDict : Bool := false
  deriving Repr, DecidableEq

/-- Result of the `_can_create` permission collaborator: the
`(allowed, message, error_code)` tuple it returns. -/
structure CanCreate where
  allowed : Bool
  msg : String
  errorCode : Option Nat
  deriving Repr, DecidableEq

/-- `validate_entry` from `main.py` (the variant wired into the route):
dispatched with either `error_details` set (parse failure) or a parsed
entry.  Attribute access on `None` (entry without `request`, or without
`resource` once the method check passed) raises, hence `Except`. -/
def validate_entry (request_entry : Option BundleEntry) (error_details : Option String)
    (entry_dict_resource_type : Option String) (entry_dict_id : Option String) :
    Except String (Option Issue) :=
  match error_details with
  | some details =>
      .ok (some
        { severity := "error", code := "structure",
          diagnostics := "Validation error on " ++ pyStr entry_dict_resource_type ++
            " with id: " ++ pyStr entry_dict_id,
          details := some details })
  | none =>
  match request_entry with
  | none => .error "AttributeError: \x27NoneType\x27 object has no attribute \x27request\x27"
  | some e =>
  match e.request with
  | none => .error "AttributeError: \x27NoneType\x27 object has no attribute \x27method\x27"
  | some req =>
  if req.method ≠ "PUT" ∧ req.method ≠ "DELETE" then
    .ok (some
      { severity := "error", code := "invariant",
        diagnostics := "Invalid entry.method " ++ req.method ++ " for entry " ++
          pyStr e.fullUrl ++ ", must be PUT or DELETE" })
  else
  match e.resource with
  | none => .error "AttributeError: \x27NoneType\x27 object has no attribute \x27id\x27"
  | some r =>
  match r.id with
  | none =>
      .ok (some
        { severity := "error", code := "invariant",
          diagnostics := "Resource missing id",
          details := some ("for resource " ++ pyReprResource r) })
  | some rid =>
  if ¬ UUID_PATTERN_match rid then
    .ok (some
      { severity := "error", code := "invariant",
        diagnostics := "Resource id " ++ rid ++
          " is not a UUID seehttps://build.fhir.org/datatypes.html#uuid for details" })
  else if r.resource_type ∉ valid_resource_types then
    .ok (some
      { severity := "error", code := "invariant",
        diagnostics := "Unsupported resource " ++ r.resource_type })
  else if r.identifier = [] then
    .ok (some
      { severity := "error", code := "required",
        diagnostics := "Missing identifier for " ++ r.resource_type ++ " with " ++ rid })
  else
    .ok none

/-- The `try BundleEntry(**entry_dict) ... except ValidationError` dispatch
in `validate_bundle_entries`: which `validate_entry` call one entry gets. -/
def entryIssue : EntryParse → Except String (Option Issue)
  | .malformed rt i details => validate_entry none (some details) rt i
  | .parsed e => validate_entry (some e) none none none

/-- Whether one submitted entry passes entry validation (the dispatch
returns `None`, so the entry joins `valid_fhir_rows`). -/
def entryPasses (e : EntryParse) : Bool :=
  match entryIssue e with
  | .ok none => true
  | _ => false

/-- One element of the response `entry` list: `BundleEntryResponse.status`
plus the attached outcome for invalid entries. -/
structure EntryResponse where
  status : String
  outcome : Option (List Issue)
  deriving Repr, DecidableEq

/-- The loop body of `validate_bundle_entries`: builds the response entries
in submission order and collects the rows that passed validation. -/
def validate_entries_loop : List EntryParse → Except String (List EntryResponse × List BundleEntry)
  | [] => .ok ([], [])
  | e :: rest => do
    let issue? ← entryIssue e
    let (res, rows) ← validate_entries_loop rest
    match issue? with
    | none =>
        match e with
        | .parsed pe => .ok ({ status := "200", outcome := none } :: res, pe :: rows)
        | .malformed .. => .ok ({ status := "200", outcome := none } :: res, rows)
    | some iss => .ok ({ status := "422", outcome := some [iss] } :: res, rows)

/-- `body.get("identifier", {}).get("value", None)` (no `system` check on
this path), projected to the string case: a truthy non-dict identifier (on
which this line would raise) or a non-string value occurs only on bodies
where `validate_bundle` already raised, so the route never reaches this
line with one; both are projected to `none`. -/
def bundleIdentifierValue (body : Body) : Option String :=
  match body.identifier with
  | some (.dict _ (some (.str p))) => some p
  | _ => none

/-- `validate_bundle_entries` from `main.py`: per-entry validation plus the
project id read from `body.get("identifier", {}).get("value", None)`. -/
def validate_bundle_entries (body : Body) :
    Except String (List EntryResponse × List BundleEntry × Option String) := do
  let (res, rows) ← validate_entries_loop (body.entry.getD [])
  .ok (res, rows, bundleIdentifierValue body)

/-- Fatal issue appended when `int(content_length) > MAX_REQUEST_SIZE`. -/
def sizeIssue : Issue :=
  { severity := "fatal", code := "required", diagnostics := "Bundle body greater than 50 MB" }

/-- Fatal issue appended when `body is None or body == {}`. -/
def missingBodyIssue : Issue :=
  { severity := "fatal", code := "required", diagnostics := "Bundle missing body" }

/-- Fatal issue appended when the `Authorization` header is absent. -/
def missingAuthIssue : Issue :=
  { severity := "fatal", code := "security", diagnostics := "Missing Authorization header" }

/-- Fatal issue appended when `body.get("resourceType")` is not `"Bundle"`. -/
def notBundleIssue (v : Option String) : Issue :=
  { severity := "fatal", code := "required",
    diagnostics := "Body must be a FHIR Bundle, not " ++ pyStr v }

/-- Fatal issue appended when `body.get("type")` is not `"transaction"`. -/
def notTransactionIssue (v : Option String) : Issue :=
  { severity := "fatal", code := "required",
    diagnostics := "Bundle must be of type `transaction`, not " ++ pyStr v }

/-- Fatal issue appended when the `identifier` block is absent. -/
def missingIdentifierIssue : Issue :=
  { severity := "fatal", code := "required", diagnostics := "Bundle missing identifier" }

/-- Fatal issue appended when no project id could be derived from the
identifier block. -/
def missingProjectIdIssue : Issue :=
  { severity := "fatal", code := "required",
    diagnostics := "Bundle missing identifier https://aced-idp.org/project_id" }

/-- Fatal issue appended when the project id does not split on `-` into
exactly two segments. -/
def projectIdFormIssue : Issue :=
  { severity := "fatal", code := "required",
    diagnostics := "Bundle identifier project id not in the from \x27str-str\x27" }

/-- Fatal issue appended when the `entry` list is absent or empty. -/
def missingEntryIssue : Issue :=
  { severity := "fatal", code := "required", diagnostics := "Bundle missing entry" }

/-- The success issue appended when no check failed. -/
def successIssue : Issue :=
  { severity := "success", code := "success", diagnostics := "non fatal entry" }

/-- The issue appended when `process` returned a non-empty error list:
severity `"fatal"`, code `"exception"`, diagnostics `str(errors)`. -/
def exceptionIssue (errors : List String) : Issue :=
  { severity := "fatal", code := "exception", diagnostics := pyStrList errors }

/-- Fatal issue appended from a disallowing `_can_create` answer:
`"security"` for error code 401, `"forbidden"` otherwise. -/
def permissionIssue (cc : CanCreate) : Issue :=
  { severity := "fatal",
    code := if cc.errorCode == some 401 then "security" else "forbidden",
    diagnostics := cc.msg }

/-- The guard `identifier and identifier.get("system", None) == ...`
raises `AttributeError` when the identifier slot holds a truthy non-dict
value (`.get` on, say, a string). -/
def identifierRaisesGet (b : Body) : Bool :=
  match b.identifier with
  | some (.nonDict truthy) => truthy
  | _ => false

/-- `len(project_id.split("-"))` raises `AttributeError` when the derived
project id is present but not a string (it survived `is None`). -/
def projectIdRaisesSplit (b : Body) : Bool :=
  match b.identifier with
  | some (.dict system (some .nonStr)) =>
      system == some "https://aced-idp.org/project_id"
  | _ => false

/-- `project_id` as derived inside `validate_bundle` on the non-raising
bodies: the identifier block's string `value`, but only when the block is a
truthy dict whose `system` is the project-id url. -/
def bundleProjectId (body : Body) : Option String :=
  match body.identifier with
  | some (.dict system (some (.str p))) =>
      if system == some "https://aced-idp.org/project_id" then some p else none
  | _ => none

/-- The size guard `content_length is not None and int(content_length) > MAX`. -/
def contentOver (content_length : Option Int) : Bool :=
  match content_length with
  | some v => v > MAX_REQUEST_SIZE
  | none => false

/-- One `if cond: outcome.issue.append(iss)` statement of `validate_bundle`:
the issues it contributes. -/
def condIssue (cond : Bool) (iss : Issue) : List Issue :=
  if cond then [iss] else []

/-- The guard `project_id is not None and len(project_id.split("-")) != 2`. -/
def projectIdMalformed (b : Body) : Bool :=
  match bundleProjectId b with
  | some pid => (pySplit pid '-').length ≠ 2
  | none => false

/-- The guard `_ is None or _ == []` on `body.get("entry", None)`. -/
def entryMissing (b : Body) : Bool :=
  match b.entry with
  | none => true
  | some l => l.isEmpty

/-- The issues contributed by the final permission-check block of
`validate_bundle`, which only runs when both the authorization header and a
derived project id are present. -/
def permissionIssues (canCreate : String → String → CanCreate) (b : Body)
    (authorization : Option String) : List Issue :=
  match authorization with
  | none => []
  | some tok =>
    match bundleProjectId b with
    | none => []
    | some pid =>
      let cc := canCreate tok pid
      if ¬ cc.allowed then [permissionIssue cc] else []

/-- The issues collected by the sequence of (non-short-circuiting) checks of
`validate_bundle`, in source order, before the empty-outcome fixup. -/
def bundleIssuesCore (canCreate : String → String → CanCreate) (b : Body)
    (authorization : Option String) (content_length : Option Int) : List Issue :=
  condIssue (contentOver content_length) sizeIssue ++
  condIssue b.emptyDict missingBodyIssue ++
  condIssue authorization.isNone missingAuthIssue ++
  condIssue (decide (b.resourceType ≠ some "Bundle")) (notBundleIssue b.resourceType) ++
  condIssue (decide (b.type ≠ some "transaction")) (notTransactionIssue b.type) ++
  condIssue b.identifier.isNone missingIdentifierIssue ++
  condIssue (bundleProjectId b).isNone missingProjectIdIssue ++
  condIssue (projectIdMalformed b) projectIdFormIssue ++
  condIssue (entryMissing b) missingEntryIssue ++
  permissionIssues canCreate b authorization

/-- `validate_bundle` from `main.py`.  It raises `AttributeError` (the
checks already appended to the local outcome are discarded by the
exception) for a `None` body at the first `body.get`, for a truthy
non-dict identifier at `identifier.get`, and for a present non-string
project-id value at `project_id.split`; every other dict body returns,
with the lone success issue substituted for an empty outcome. -/
def validate_bundle (canCreate : String → String → CanCreate)
    (body : Option Body) (authorization : Option String) (content_length : Option Int) :
    Except String (List Issue) :=
  match body with
  | none => .error "AttributeError: \x27NoneType\x27 object has no attribute \x27get\x27"
  | some b =>
      if identifierRaisesGet b then
        .error "AttributeError: \x27str\x27 object has no attribute \x27get\x27"
      else if projectIdRaisesSplit b then
        .error "AttributeError: \x27int\x27 object has no attribute \x27split\x27"
      else
        let issues := bundleIssuesCore canCreate b authorization content_length
        .ok (if issues.length = 0 then [successIssue] else issues)

/-- The status resolution performed when the bundle-level outcome has a
fatal issue: start from 422, override with 401 when some issue carries code
`"security"`, then override with 403 when some issue carries code
`"forbidden"` (two independent `if` statements, in that order, both in
`put__bundle` and in `_any_fatal_issues`). -/
def fatalStatusCode (issue : List Issue) : Nat :=
  let sc := 422
  let sc := if issue.any (fun i => i.code == "security") then 401 else sc
  let sc := if issue.any (fun i => i.code == "forbidden") then 403 else sc
  sc

/-- `_any_fatal_issues` from `bundle_validate.py` (the same decision the
route body of `put__bundle` makes inline): whether any issue is fatal and,
if so, the resolved transport status code. -/
def _any_fatal_issues (issue : List Issue) : Bool × Option Nat :=
  if issue.any (fun i => i.severity == "fatal") then
    (true, some (fatalStatusCode issue))
  else
    (false, none)

/-- The observable outcome of one `put__bundle` request: the transport
status code, the response `entry` list (omitted entirely on the fatal
short-circuit), the bundle-level outcome, whether per-entry validation ran,
whether the commit orchestrator `process` was invoked, and whether a
`Location` header was added. -/
structure PipelineResult where
  status_code : Nat
  entries : Option (List EntryResponse)
  issue : List Issue
  entriesValidated : Bool
  commitInvoked : Bool
  locationHeader : Bool
  deriving Repr, DecidableEq

/-- The status code chosen from the per-entry results (the
`all_invalid` / `any_invalid_entries` block of `put__bundle`). -/
def entryStatusCode (response_entries : List EntryResponse) : Nat :=
  let all_invalid := response_entries.all (fun e => e.status != "200")
  let any_invalid := response_entries.any (fun e => e.status != "200")
  if any_invalid then (if all_invalid then 422 else 202) else 201

/-- The route body `put__bundle` from `main.py`.  `processOracle` stands for
`process(valid_fhir_rows, project_id, access_token)` and yields the error
list the commit produced; the flags record which pipeline stages ran. -/
def put__bundle (canCreate : String → String → CanCreate)
    (processOracle : List BundleEntry → Option String → List String)
    (body : Option Body) (access_token : Option String) (content_length : Option Int) :
    Except String PipelineResult := do
  let outcome ← validate_bundle canCreate body access_token content_length
  if outcome.any (fun i => i.severity == "fatal") then
    .ok { status_code := fatalStatusCode outcome, entries := none, issue := outcome,
          entriesValidated := false, commitInvoked := false, locationHeader := false }
  else
    let (response_entries, valid_fhir_rows, project_id) ←
      validate_bundle_entries (body.getD {})
    let status1 := entryStatusCode response_entries
    let errors := processOracle valid_fhir_rows project_id
    let exceptionAppended :=
      if errors.length > 0 then [exceptionIssue errors] else []
    let status_code := if errors.length > 0 then 500 else status1
    .ok { status_code := status_code, entries := some response_entries,
          issue := outcome ++ exceptionAppended,
          entriesValidated := true, commitInvoked := true,
          locationHeader := status_code == 201 || status_code == 202 }

/-- The two environment variables `process_bundle.py` asserts on. -/
structure Env where
  gripServiceName : Option String
  gripGraphName : Option String
  deriving Repr, DecidableEq

/-- A grip collaborator response: the `status` (already through `int(...)`)
and `message` fields the code reads. -/
structure CollabResult where
  status : Int
  message : String
  deriving Repr, DecidableEq

/-- `_get_grip_graph_name`: asserts the env var is set, else raises. -/
def getGripGraphName (env : Env) : Except String String :=
  match env.gripGraphName with
  | some g => .ok g
  | none => .error "AssertionError: check GRIP_GRAPH_NAME env in helm chart. env var is None"

/-- `_get_grip_service_name`: asserts the env var is set, else raises. -/
def getGripServiceName (env : Env) : Except String String :=
  match env.gripServiceName with
  | some s => .ok s
  | none => .error "AssertionError: check GRIP_SERVICE_NAME env in helm chart. env var is None"

/-- The row loop of `process`: accumulates `files_written` (a PUT row was
staged) and the deletion vertex batch.  Key / attribute errors of the raw
dict accesses (`row["request"]`, `row["resource"]`, `url.split("/")[1]`)
raise. -/
def processRowsLoop (rows : List BundleEntry) (filesWritten : Bool) (vertices : List String) :
    Except String (Bool × List String) :=
  match rows with
  | [] => .ok (filesWritten, vertices)
  | row :: rest =>
    match row.request with
    | none => .error "KeyError: request"
    | some req =>
      if req.method = "PUT" then
        match row.resource with
        | none => .error "TypeError: \x27NoneType\x27 object is not subscriptable"
        | some _ => processRowsLoop rest true vertices
      else if req.method = "DELETE" then
        match req.url with
        | none => .error "AttributeError: \x27NoneType\x27 object has no attribute \x27split\x27"
        | some u =>
          match (pySplit u '/')[1]? with
          | none => .error "IndexError: list index out of range"
          | some v => processRowsLoop rest filesWritten (vertices ++ [v])
      else
        processRowsLoop rest filesWritten vertices

/-- `process` from `processing/process_bundle.py`.  `bulkDelete` and
`bulkLoad` stand for the grip collaborators (observed through their
status / message), and `reindex` stands for the whole trailing
`try ... except` block: `none` means it ran without raising, and
`some (tb, msg)` means it raised, in which case the formatted traceback and
the stringified exception are both appended.  The splits of `project_id`
and of delete urls, and the environment assertions, raise as in the
source. -/
def process (env : Env)
    (bulkDelete : String → String → Option String → List String → CollabResult)
    (bulkLoad : String → String → Option String → CollabResult)
    (reindex : Option String → Option (String × String))
    (rows : List BundleEntry) (project_id : Option String) (access_token : Option String) :
    Except String (List String) := do
  let graphName ← getGripGraphName env
  let (filesWritten, vertices) ← processRowsLoop rows false []
  let errs1 ←
    if vertices.length > 0 then do
      let serviceName ← getGripServiceName env
      let res := bulkDelete serviceName graphName project_id vertices
      pure (if res.status ≠ 200 then [res.message] else [])
    else pure []
  let errs2 ←
    if filesWritten then do
      let _ ←
        match project_id with
        | none => Except.error "AttributeError: \x27NoneType\x27 object has no attribute \x27split\x27"
        | some pid =>
          if (pySplit pid '-').length ≠ 2 then
            Except.error "ValueError: values to unpack"
          else Except.ok pid
      let serviceName ← getGripServiceName env
      let res := bulkLoad serviceName graphName project_id
      pure (if res.status ≠ 200 then [res.message] else [])
    else pure ([] : List String)
  let errs3 :=
    match reindex project_id with
    | none => []
    | some (tb, msg) => [tb, msg]
  .ok (errs1 ++ errs2 ++ errs3)

/-- A row `process` can consume without raising: a present `request`; PUT
rows carry a resource dict, DELETE rows a url containing `/`. -/
def rowWellFormed (r : BundleEntry) : Bool :=
  match r.request with
  | none => false
  | some req =>
    if req.method == "PUT" then r.resource.isSome
    else if req.method == "DELETE" then
      match req.url with
      | none => false
      | some u => (pySplit u '/').length ≥ 2
    else true

/-- Whether some row is a PUT (so `process` will stage files and need the
project id split). -/
def anyPutRow (rows : List BundleEntry) : Bool :=
  rows.any (fun r => (r.request.map (fun q => q.method)).getD "" == "PUT")

/-- A project id `process` can unpack: present, with exactly one `-`. -/
def projectIdWellFormed (project_id : Option String) : Bool :=
  match project_id with
  | none => false
  | some p => (pySplit p '-').length == 2

/-! Concrete fixtures used by witnesses and counterexamples. -/

/-- A permission collaborator that always allows. -/
def ccAllow : String → String → CanCreate :=
  fun _ _ => { allowed := true, msg := "ok", errorCode := none }

/-- A parsed PUT entry that passes every entry-validation rule. -/
def validEntry : BundleEntry :=
  { fullUrl := none,
    resource := some
      { id := some "b7793c1a-690e-5b7b-8b5b-867555936d06",
        resource_type := "Patient",
        identifier := ["https://example.org/my_id|ohsu-test"] },
    request := some { method := "PUT", url := some "Patient" } }

/-- A resource with no id, an unsupported type and no identifier. -/
def claimNoIdResource : Resource :=
  { id := none, resource_type := "Claim", identifier := [] }

/-- A parsed PUT entry whose resource has no id (and an unsupported type). -/
def missingIdEntry : BundleEntry :=
  { fullUrl := none,
    resource := some claimNoIdResource,
    request := some { method := "PUT", url := none } }

/-- A request body that passes every preflight check. -/
def bValid : Body :=
  { resourceType := some "Bundle", type := some "transaction",
    identifier := some
      (.dict (some "https://aced-idp.org/project_id") (some (.str "ohsu-test"))),
    entry := some [.parsed validEntry] }

/-- `bValid` with a second, invalid entry appended. -/
def bMixed : Body :=
  { bValid with entry := some [.parsed validEntry, .parsed missingIdEntry] }

/-- A fatal issue with code `"security"`. -/
def secIssue : Issue :=
  { severity := "fatal", code := "security", diagnostics := "Token has expired" }

/-- A fatal issue with code `"forbidden"`. -/
def forbIssue : Issue :=
  { severity := "fatal", code := "forbidden", diagnostics := "create not found in user authz" }

/-- An environment with both grip variables set. -/
def envSet : Env := { gripServiceName := some "grip", gripGraphName := some "CALIPER" }

/-- A grip delete collaborator that always reports success. -/
def bdOk : String → String → Option String → List String → CollabResult :=
  fun _ _ _ _ => { status := 200, message := "ok" }

/-- A grip load collaborator that always reports success. -/
def blOk : String → String → Option String → CollabResult :=
  fun _ _ _ => { status := 200, message := "ok" }

/-- A reindex block that never raises. -/
def riOk : Option String → Option (String × String) := fun _ => none

/-- A DELETE row whose `request.url` contains no `/`: `url.split("/")[1]`
raises `IndexError` inside `process`. -/
def badDeleteRow : BundleEntry :=
  { request := some { method := "DELETE", url := some "Patient" } }

/-- A parsed PUT entry built from its parts (used to state the rule order
of `validate_entry`). -/
def putEntryOf (fu url : Option String) (r : Resource) : BundleEntry :=
  { fullUrl := fu, resource := some r, request := some { method := "PUT", url := url } }

/-- A dict body whose `identifier` key holds the truthy non-dict string
`"x"`: `validate_bundle` raises at `identifier.get`. -/
def badIdentBody : Body := { identifier := some (.nonDict true) }

/-- An empty-dict request body missing every required piece. -/
def multiFailBody : Body := { emptyDict := true }

/-- The preflight outcome of `multiFailBody` with no authorization header
and an oversized Content-Length. -/
def multiFailIssues : List Issue :=
  [sizeIssue, missingBodyIssue, missingAuthIssue, notBundleIssue none,
   notTransactionIssue none, missingIdentifierIssue, missingProjectIdIssue,
   missingEntryIssue]

/-- The preflight outcome of `multiFailBody` with no authorization header
and no Content-Length. -/
def noAuthIssues : List Issue :=
  [missingBodyIssue, missingAuthIssue, notBundleIssue none, notTransactionIssue none,
   missingIdentifierIssue, missingProjectIdIssue, missingEntryIssue]

/-- The entry-validation issue `missingIdEntry` receives. -/
def missingIdIssue : Issue :=
  { severity := "error", code := "invariant", diagnostics := "Resource missing id",
    details := some ("for resource " ++ pyReprResource claimNoIdResource) }

/-- The response entries `bMixed` produces: the valid entry passes, the
id-less entry is rejected with its issue attached. -/
def mixedResponses : List EntryResponse :=
  [{ status := "200", outcome := none },
   { status := "422", outcome := some [missingIdIssue] }]

/-! Helper lemmas about the preflight validator. -/

/-- Membership in one conditional append. -/
theorem mem_condIssue {x iss : Issue} {c : Bool} :
    x ∈ condIssue c iss ↔ c = true ∧ x = iss := by
  cases c <;> simp [condIssue]

/-- Every issue the permission block contributes is fatal. -/
theorem permissionIssues_fatal {canCreate : String → String → CanCreate} {b : Body}
    {auth : Option String} {i : Issue} (hi : i ∈ permissionIssues canCreate b auth) :
    i.severity = "fatal" := by
  unfold permissionIssues at hi
  rcases auth with _ | tok
  · simp at hi
  · rcases hpid : bundleProjectId b with _ | pid <;> rw [hpid] at hi
    · simp at hi
    · by_cases hcc : (canCreate tok pid).allowed
      · simp [hcc] at hi
      · simp [hcc] at hi
        subst hi
        rfl

/-- Every issue a preflight check contributes is fatal. -/
theorem bundleIssuesCore_fatal {canCreate : String → String → CanCreate} {b : Body}
    {auth : Option String} {cl : Option Int} {i : Issue}
    (hi : i ∈ bundleIssuesCore canCreate b auth cl) : i.severity = "fatal" := by
  unfold bundleIssuesCore at hi
  simp only [List.mem_append, mem_condIssue] at hi
  rcases hi with ((((((((⟨-, rfl⟩ | ⟨-, rfl⟩) | ⟨-, rfl⟩) | ⟨-, rfl⟩) | ⟨-, rfl⟩) | ⟨-, rfl⟩) |
    ⟨-, rfl⟩) | ⟨-, rfl⟩) | ⟨-, rfl⟩) | hperm
  all_goals first
    | rfl
    | exact permissionIssues_fatal hperm

/-- `validate_bundle` on a non-raising dict body, written through the
check list. -/
theorem validate_bundle_some (canCreate : String → String → CanCreate) (b : Body)
    (auth : Option String) (cl : Option Int)
    (h1 : identifierRaisesGet b = false) (h2 : projectIdRaisesSplit b = false) :
    validate_bundle canCreate (some b) auth cl =
      Except.ok (if (bundleIssuesCore canCreate b auth cl).length = 0 then [successIssue]
                 else bundleIssuesCore canCreate b auth cl) := by
  unfold validate_bundle
  simp [h1, h2]

/-- What an `ok` answer of the preflight validator can be. -/
theorem validate_bundle_ok_cases {canCreate : String → String → CanCreate} {b : Body}
    {auth : Option String} {cl : Option Int} {issues : List Issue}
    (h : validate_bundle canCreate (some b) auth cl = Except.ok issues) :
    (bundleIssuesCore canCreate b auth cl = [] ∧ issues = [successIssue]) ∨
    (bundleIssuesCore canCreate b auth cl ≠ [] ∧
      issues = bundleIssuesCore canCreate b auth cl) := by
  simp only [validate_bundle] at h
  by_cases hb1 : identifierRaisesGet b = true
  · rw [hb1] at h
    simp at h
  have hb1f : identifierRaisesGet b = false := by simpa using hb1
  by_cases hb2 : projectIdRaisesSplit b = true
  · rw [hb1f, hb2] at h
    simp at h
  have hb2f : projectIdRaisesSplit b = false := by simpa using hb2
  rw [hb1f, hb2f] at h
  simp only [Bool.false_eq_true, if_false] at h
  have h' := Except.ok.inj h
  by_cases hc : bundleIssuesCore canCreate b auth cl = []
  · left
    refine ⟨hc, ?_⟩
    rw [← h']
    simp [hc]
  · right
    refine ⟨hc, ?_⟩
    rw [← h']
    have hlen : (bundleIssuesCore canCreate b auth cl).length ≠ 0 := by
      simpa [List.length_eq_zero] using hc
    simp [hlen]

/-- A failing check's issue survives into the returned outcome. -/
theorem mem_issues_of_mem_core {canCreate : String → String → CanCreate} {b : Body}
    {auth : Option String} {cl : Option Int} {issues : List Issue} {x : Issue}
    (h : validate_bundle canCreate (some b) auth cl = Except.ok issues)
    (hx : x ∈ bundleIssuesCore canCreate b auth cl) : x ∈ issues := by
  rcases validate_bundle_ok_cases h with ⟨hc, rfl⟩ | ⟨-, rfl⟩
  · rw [hc] at hx
    cases hx
  · exact hx

/-! Claim theorems. -/

/-- C10 counterexample: the dict body `{"identifier": "x"}` — a truthy
non-dict identifier slot — makes `validate_bundle` raise (`identifier.get`
on a string), so the validator is not total on dict bodies either. -/
theorem c10_counterexample :
    validate_bundle ccAllow (some badIdentBody) (some "tok") none =
      Except.error "AttributeError: \x27str\x27 object has no attribute \x27get\x27" := by
  rfl

/-- C10 (amended): `validate_bundle` raises for a `None` body, and also on
dict bodies whose identifier slot is a truthy non-dict value
(`identifier.get`) or carries a present non-string project-id value under
the project-id system (`project_id.split`); every other dict body — the
empty dict included — returns normally with the structured Outcome. -/
theorem c10_totality_boundary (canCreate : String → String → CanCreate)
    (auth : Option String) (cl : Option Int) :
    (∃ msg, validate_bundle canCreate none auth cl = Except.error msg) ∧
    (∀ b : Body, identifierRaisesGet b = true ∨ projectIdRaisesSplit b = true →
      ∃ msg, validate_bundle canCreate (some b) auth cl = Except.error msg) ∧
    (∀ b : Body, identifierRaisesGet b = false → projectIdRaisesSplit b = false →
      ∃ issues, validate_bundle canCreate (some b) auth cl = Except.ok issues) := by
  refine ⟨⟨_, rfl⟩, ?_, ?_⟩
  · intro b hb
    unfold validate_bundle
    rcases hb with hb | hb
    · simp [hb]
    · by_cases h1 : identifierRaisesGet b = true
      · simp [h1]
      · have h1f : identifierRaisesGet b = false := by simpa using h1
        simp [h1f, hb]
  · intro b h1 h2
    unfold validate_bundle
    simp [h1, h2]

/-- C10 (amended) witness: the raising branch at `{"identifier": "x"}` and
the returning branch at the empty dict, both through the theorem. -/
theorem c10_totality_boundary_witness :
    (∃ msg, validate_bundle ccAllow (some badIdentBody) (some "tok") none =
      Except.error msg) ∧
    (∃ issues, validate_bundle ccAllow (some multiFailBody) (some "tok") none =
      Except.ok issues) :=
  ⟨(c10_totality_boundary ccAllow (some "tok") none).2.1 badIdentBody (Or.inl rfl),
   (c10_totality_boundary ccAllow (some "tok") none).2.2 multiFailBody rfl rfl⟩

/-- C9: the preflight validator never returns an empty Outcome: the result
is non-empty, and when no check failed (equivalently, no fatal issue is
present) it is exactly the one success issue. -/
theorem c9_outcome_never_empty {canCreate : String → String → CanCreate} {b : Body}
    {auth : Option String} {cl : Option Int} {issues : List Issue}
    (h : validate_bundle canCreate (some b) auth cl = Except.ok issues) :
    issues ≠ [] ∧ ((∀ i ∈ issues, i.severity ≠ "fatal") → issues = [successIssue]) := by
  rcases validate_bundle_ok_cases h with ⟨-, rfl⟩ | ⟨hne, rfl⟩
  · exact ⟨by simp, fun _ => rfl⟩
  · refine ⟨hne, fun hall => ?_⟩
    exfalso
    rcases List.exists_mem_of_ne_nil _ hne with ⟨i, hi⟩
    exact hall i hi (bundleIssuesCore_fatal hi)

/-- C9 witness: the all-checks-pass body returns exactly the success issue. -/
theorem c9_outcome_never_empty_witness :
    [successIssue] ≠ [] ∧
    ((∀ i ∈ [successIssue], i.severity ≠ "fatal") → [successIssue] = [successIssue]) :=
  @c9_outcome_never_empty ccAllow bValid (some "tok") none [successIssue] (by rfl)

/-- C3: a fatal preflight issue short-circuits the pipeline: entry
validation never runs, the commit orchestrator is never invoked, and the
response carries no entries — only the bundle-level outcome. -/
theorem c3_fatal_short_circuit {canCreate : String → String → CanCreate}
    {po : List BundleEntry → Option String → List String} {body : Option Body}
    {tok : Option String} {cl : Option Int} {outcome : List Issue}
    (hvb : validate_bundle canCreate body tok cl = Except.ok outcome)
    (hfatal : outcome.any (fun i => i.severity == "fatal") = true) :
    put__bundle canCreate po body tok cl =
      Except.ok { status_code := fatalStatusCode outcome, entries := none, issue := outcome,
                  entriesValidated := false, commitInvoked := false,
                  locationHeader := false } := by
  unfold put__bundle
  rw [hvb]
  simp [Bind.bind, Except.bind, hfatal]

/-- C3 witness: an empty-dict body (fatal preflight issues) yields the
short-circuit response: no entries, no entry validation, no commit. -/
theorem c3_fatal_short_circuit_witness :
    put__bundle ccAllow (fun _ _ => []) (some multiFailBody) none none =
      Except.ok { status_code := fatalStatusCode noAuthIssues, entries := none,
                  issue := noAuthIssues, entriesValidated := false,
                  commitInvoked := false, locationHeader := false } :=
  c3_fatal_short_circuit (by rfl) (by rfl)

/-- C6: for a PUT entry the entry validator applies its rules in order,
first failing rule wins: id presence (error issue, code `"invariant"`,
diagnostics `"Resource missing id"`), then the UUID shape of the id, then
membership of the resourceType in the allow-list, then non-emptiness of
the identifier; in particular a PUT entry with a missing id and an
unsupported resourceType yields the `"Resource missing id"` issue. -/
theorem c6_put_rule_order (fu url : Option String) (r : Resource) :
    (r.id = none →
      validate_entry (some (putEntryOf fu url r)) none none none =
        Except.ok (some
          { severity := "error", code := "invariant",
            diagnostics := "Resource missing id",
            details := some ("for resource " ++ pyReprResource r) })) ∧
    (∀ rid, r.id = some rid → UUID_PATTERN_match rid = false →
      validate_entry (some (putEntryOf fu url r)) none none none =
        Except.ok (some
          { severity := "error", code := "invariant",
            diagnostics := "Resource id " ++ rid ++
              " is not a UUID seehttps://build.fhir.org/datatypes.html#uuid for details" })) ∧
    (∀ rid, r.id = some rid → UUID_PATTERN_match rid = true →
        r.resource_type ∉ valid_resource_types →
      validate_entry (some (putEntryOf fu url r)) none none none =
        Except.ok (some
          { severity := "error", code := "invariant",
            diagnostics := "Unsupported resource " ++ r.resource_type })) ∧
    (∀ rid, r.id = some rid → UUID_PATTERN_match rid = true →
        r.resource_type ∈ valid_resource_types → r.identifier = [] →
      validate_entry (some (putEntryOf fu url r)) none none none =
        Except.ok (some
          { severity := "error", code := "required",
            diagnostics := "Missing identifier for " ++ r.resource_type ++
              " with " ++ rid })) ∧
    (∀ rid, r.id = some rid → UUID_PATTERN_match rid = true →
        r.resource_type ∈ valid_resource_types → r.identifier ≠ [] →
      validate_entry (some (putEntryOf fu url r)) none none none = Except.ok none) := by
  obtain ⟨rid?, rtype, ridl⟩ := r
  refine ⟨?_, ?_, ?_, ?_, ?_⟩
  · intro h
    subst h
    simp [validate_entry, putEntryOf]
  · intro rid h huuid
    subst h
    simp [validate_entry, putEntryOf, huuid]
  · intro rid h huuid htype
    subst h
    simp [validate_entry, putEntryOf, huuid, htype]
  · intro rid h huuid htype hident
    subst h
    simp only [Resource.identifier] at hident
    simp [validate_entry, putEntryOf, huuid, htype, hident]
  · intro rid h huuid htype hident
    subst h
    simp only [Resource.identifier] at hident
    simp [validate_entry, putEntryOf, huuid, htype, hident]

/-- C6 witness: a PUT entry whose resource has no id and an unsupported
resourceType gets the `"Resource missing id"` issue. -/
theorem c6_put_rule_order_witness :
    validate_entry (some (putEntryOf none none claimNoIdResource)) none none none =
      Except.ok (some
        { severity := "error", code := "invariant",
          diagnostics := "Resource missing id",
          details := some ("for resource " ++ pyReprResource claimNoIdResource) }) :=
  (c6_put_rule_order none none claimNoIdResource).1 rfl

/-- C1 counterexample: an outcome carrying both a fatal `"security"` issue
and a fatal `"forbidden"` issue resolves to 403, not 401 — the `forbidden`
check runs second and overwrites the 401. -/
theorem c1_counterexample :
    _any_fatal_issues [secIssue, forbIssue] = (true, some 403) ∧
    (_any_fatal_issues [secIssue, forbIssue]).2 ≠ some 401 := by
  constructor
  · rfl
  · intro h
    exact absurd ((rfl : (_any_fatal_issues [secIssue, forbIssue]).2 = some 403) ▸ h)
      (by decide)

/-- C1 (amended): when the outcome has a fatal issue and issues with both
codes are present, `forbidden` takes precedence over `security`: the
resolver answers 403. -/
theorem c1_amended {issues : List Issue}
    (hfatal : issues.any (fun i => i.severity == "fatal") = true)
    (hsec : issues.any (fun i => i.code == "security") = true)
    (hforb : issues.any (fun i => i.code == "forbidden") = true) :
    _any_fatal_issues issues = (true, some 403) := by
  unfold _any_fatal_issues fatalStatusCode
  simp [hfatal, hsec, hforb]

/-- C1 (amended) witness: applied to the two-issue outcome. -/
theorem c1_amended_witness :
    ([secIssue, forbIssue].any (fun i => i.severity == "fatal") = true) ∧
    _any_fatal_issues [secIssue, forbIssue] = (true, some 403) :=
  ⟨rfl, c1_amended rfl rfl rfl⟩

/-- Two issues with diagnostics of different lengths differ. -/
theorem issue_ne_of_diag_length {i j : Issue}
    (h : i.diagnostics.length ≠ j.diagnostics.length) : i ≠ j :=
  fun he => h (by rw [he])

/-- The `resourceType`-check issue is never the size issue (its diagnostics
is strictly longer, whatever the reported value). -/
theorem notBundleIssue_ne_sizeIssue (v : Option String) : notBundleIssue v ≠ sizeIssue := by
  apply issue_ne_of_diag_length
  show ("Body must be a FHIR Bundle, not " ++ pyStr v).length ≠
    ("Bundle body greater than 50 MB" : String).length
  rw [String.length_append]
  have h1 : ("Body must be a FHIR Bundle, not " : String).length = 32 := rfl
  have h2 : ("Bundle body greater than 50 MB" : String).length = 30 := rfl
  omega

/-- The `type`-check issue is never the size issue. -/
theorem notTransactionIssue_ne_sizeIssue (v : Option String) :
    notTransactionIssue v ≠ sizeIssue := by
  apply issue_ne_of_diag_length
  show ("Bundle must be of type `transaction`, not " ++ pyStr v).length ≠
    ("Bundle body greater than 50 MB" : String).length
  rw [String.length_append]
  have h1 : ("Bundle must be of type `transaction`, not " : String).length = 42 := rfl
  have h2 : ("Bundle body greater than 50 MB" : String).length = 30 := rfl
  omega

/-- A permission-check issue is never the size issue (its code is
`"security"` or `"forbidden"`, not `"required"`). -/
theorem permissionIssue_ne_sizeIssue (cc : CanCreate) : permissionIssue cc ≠ sizeIssue := by
  intro h
  have hc := congrArg Issue.code h
  by_cases h4 : cc.errorCode == some 401
  · rw [show (permissionIssue cc).code = "security" by simp [permissionIssue, h4]] at hc
    exact absurd hc (by decide)
  · rw [show (permissionIssue cc).code = "forbidden" by simp [permissionIssue, h4]] at hc
    exact absurd hc (by decide)

/-- Every issue of the permission block equals `permissionIssue` of the
collaborator's answer, with authorization and project id both present. -/
theorem eq_permissionIssue_of_mem {canCreate : String → String → CanCreate} {b : Body}
    {auth : Option String} {i : Issue} (hi : i ∈ permissionIssues canCreate b auth) :
    ∃ tok pid, auth = some tok ∧ bundleProjectId b = some pid ∧
      i = permissionIssue (canCreate tok pid) := by
  unfold permissionIssues at hi
  rcases auth with _ | tok
  · simp at hi
  · rcases hpid : bundleProjectId b with _ | pid <;> rw [hpid] at hi
    · simp at hi
    · by_cases hcc : (canCreate tok pid).allowed
      · simp [hcc] at hi
      · simp [hcc] at hi
        exact ⟨tok, pid, rfl, rfl, hi⟩

/-- The size issue sits in the check list exactly when the size guard
fired. -/
theorem sizeIssue_mem_core_iff {canCreate : String → String → CanCreate} {b : Body}
    {auth : Option String} {cl : Option Int} :
    sizeIssue ∈ bundleIssuesCore canCreate b auth cl ↔ contentOver cl = true := by
  unfold bundleIssuesCore
  simp only [List.mem_append, mem_condIssue]
  constructor
  · rintro (((((((((⟨h, -⟩ | ⟨-, h⟩) | ⟨-, h⟩) | ⟨-, h⟩) | ⟨-, h⟩) | ⟨-, h⟩) | ⟨-, h⟩) | ⟨-, h⟩) | ⟨-, h⟩) | hperm)
    · exact h
    · exact absurd h (by decide)
    · exact absurd h (by decide)
    · exact absurd h.symm (notBundleIssue_ne_sizeIssue _)
    · exact absurd h.symm (notTransactionIssue_ne_sizeIssue _)
    · exact absurd h (by decide)
    · exact absurd h (by decide)
    · exact absurd h (by decide)
    · exact absurd h (by decide)
    · obtain ⟨tok, pid, -, -, heq⟩ := eq_permissionIssue_of_mem hperm
      exact absurd heq.symm (permissionIssue_ne_sizeIssue _)
  · intro h
    simp [h]

/-- C7 counterexample: a request with no Content-Length and an otherwise
fully valid bundle produces only the success issue — no fatal
`"required"` issue at all, contradicting the claim's "absent" half. -/
theorem c7_counterexample :
    validate_bundle ccAllow (some bValid) (some "tok") none =
      Except.ok [successIssue] ∧
    [successIssue].any (fun i => i.severity == "fatal" && i.code == "required") = false := by
  constructor
  · rfl
  · rfl

/-- C7 (amended): the size check fires only for a present Content-Length
strictly above 50 MiB: absent, or present and at most the bound, yields no
size issue; present and above the bound always yields it. -/
theorem c7_amended {canCreate : String → String → CanCreate} {b : Body}
    {auth : Option String} {cl : Option Int} {issues : List Issue}
    (h : validate_bundle canCreate (some b) auth cl = Except.ok issues) :
    ((cl = none ∨ ∃ v, cl = some v ∧ v ≤ MAX_REQUEST_SIZE) → sizeIssue ∉ issues) ∧
    (∀ v, cl = some v → MAX_REQUEST_SIZE < v → sizeIssue ∈ issues) := by
  have hci : sizeIssue ∈ issues ↔ contentOver cl = true := by
    rcases validate_bundle_ok_cases h with ⟨hc, rfl⟩ | ⟨-, rfl⟩
    · constructor
      · intro hmem
        simp at hmem
        exact absurd hmem (by decide)
      · intro hover
        exfalso
        have : sizeIssue ∈ bundleIssuesCore canCreate b auth cl :=
          sizeIssue_mem_core_iff.mpr hover
        rw [hc] at this
        cases this
    · exact sizeIssue_mem_core_iff
  refine ⟨?_, ?_⟩
  · rintro (rfl | ⟨v, rfl, hle⟩) hmem
    · exact absurd (hci.mp hmem) (by decide)
    · have := hci.mp hmem
      simp only [contentOver, decide_eq_true_eq] at this
      omega
  · intro v hv hgt
    subst hv
    refine hci.mpr ?_
    simp only [contentOver, decide_eq_true_eq]
    omega

/-- C7 (amended) witness: at exactly 50 MiB no size issue appears; one byte
above, it does. -/
theorem c7_amended_witness :
    sizeIssue ∉ [successIssue] ∧ sizeIssue ∈ multiFailIssues :=
  ⟨(@c7_amended ccAllow bValid (some "tok") (some (50 * 1024 * 1024)) [successIssue]
      (by rfl)).1 (Or.inr ⟨_, rfl, by norm_num [MAX_REQUEST_SIZE]⟩),
   (@c7_amended ccAllow multiFailBody none (some (50 * 1024 * 1024 + 1)) multiFailIssues
      (by rfl)).2 (50 * 1024 * 1024 + 1) rfl (by norm_num [MAX_REQUEST_SIZE])⟩

/-- C8: preflight checks are cumulative, not short-circuiting: every
failing check contributes its own fatal issue to the returned outcome, so
several simultaneous violations all surface. -/
theorem c8_checks_cumulative {canCreate : String → String → CanCreate} {b : Body}
    {auth : Option String} {cl : Option Int} {issues : List Issue}
    (h : validate_bundle canCreate (some b) auth cl = Except.ok issues) :
    (contentOver cl = true → sizeIssue ∈ issues) ∧
    (b.emptyDict = true → missingBodyIssue ∈ issues) ∧
    (auth = none → missingAuthIssue ∈ issues) ∧
    (b.resourceType ≠ some "Bundle" → notBundleIssue b.resourceType ∈ issues) ∧
    (b.type ≠ some "transaction" → notTransactionIssue b.type ∈ issues) ∧
    (b.identifier = none → missingIdentifierIssue ∈ issues) ∧
    (bundleProjectId b = none → missingProjectIdIssue ∈ issues) ∧
    (projectIdMalformed b = true → projectIdFormIssue ∈ issues) ∧
    (entryMissing b = true → missingEntryIssue ∈ issues) ∧
    (∀ tok pid, auth = some tok → bundleProjectId b = some pid →
      (canCreate tok pid).allowed = false →
      permissionIssue (canCreate tok pid) ∈ issues) := by
  refine ⟨fun hc => mem_issues_of_mem_core h ?_, fun hc => mem_issues_of_mem_core h ?_,
    fun hc => mem_issues_of_mem_core h ?_, fun hc => mem_issues_of_mem_core h ?_,
    fun hc => mem_issues_of_mem_core h ?_, fun hc => mem_issues_of_mem_core h ?_,
    fun hc => mem_issues_of_mem_core h ?_, fun hc => mem_issues_of_mem_core h ?_,
    fun hc => mem_issues_of_mem_core h ?_,
    fun tok pid htok hpid hcc => mem_issues_of_mem_core h ?_⟩
  · unfold bundleIssuesCore
    simp [List.mem_append, mem_condIssue, hc]
  · unfold bundleIssuesCore
    simp [List.mem_append, mem_condIssue, hc]
  · unfold bundleIssuesCore
    subst hc
    simp [List.mem_append, mem_condIssue]
  · unfold bundleIssuesCore
    simp [List.mem_append, mem_condIssue, hc]
  · unfold bundleIssuesCore
    simp [List.mem_append, mem_condIssue, hc]
  · unfold bundleIssuesCore
    simp [List.mem_append, mem_condIssue, hc]
  · unfold bundleIssuesCore
    simp [List.mem_append, mem_condIssue, hc]
  · unfold bundleIssuesCore
    simp [List.mem_append, mem_condIssue, hc]
  · unfold bundleIssuesCore
    simp [List.mem_append, mem_condIssue, hc]
  · unfold bundleIssuesCore permissionIssues
    subst htok
    rw [hpid]
    simp [List.mem_append, hcc]

/-- C8 witness: an empty-dict body with no authorization and an oversized
Content-Length surfaces the size, body, authorization and entry issues all
at once. -/
theorem c8_checks_cumulative_witness :
    sizeIssue ∈ multiFailIssues ∧ missingBodyIssue ∈ multiFailIssues ∧
    missingAuthIssue ∈ multiFailIssues ∧ missingEntryIssue ∈ multiFailIssues := by
  have h : validate_bundle ccAllow (some multiFailBody) none
      (some (50 * 1024 * 1024 + 1)) = Except.ok multiFailIssues := by rfl
  have hall := c8_checks_cumulative h
  exact ⟨hall.1 (by rfl), hall.2.1 rfl, hall.2.2.1 rfl, hall.2.2.2.2.2.2.2.2.1 (by rfl)⟩

/-- The commit path of `put__bundle`: when preflight reports no fatal
issue and entry validation returns, the response is assembled from the
entry statuses and the commit error list. -/
theorem put__bundle_commit_path {canCreate : String → String → CanCreate}
    {po : List BundleEntry → Option String → List String} {b : Body}
    {tok : Option String} {cl : Option Int} {outcome : List Issue}
    {re : List EntryResponse} {rows : List BundleEntry} {pid : Option String}
    (hvb : validate_bundle canCreate (some b) tok cl = Except.ok outcome)
    (hnf : outcome.any (fun i => i.severity == "fatal") = false)
    (hvbe : validate_bundle_entries b = Except.ok (re, rows, pid)) :
    put__bundle canCreate po (some b) tok cl =
      Except.ok
        { status_code := if (po rows pid).length > 0 then 500 else entryStatusCode re,
          entries := some re,
          issue := outcome ++
            (if (po rows pid).length > 0 then [exceptionIssue (po rows pid)] else []),
          entriesValidated := true, commitInvoked := true,
          locationHeader :=
            ((if (po rows pid).length > 0 then 500 else entryStatusCode re) == 201 ||
             (if (po rows pid).length > 0 then 500 else entryStatusCode re) == 202) } := by
  unfold put__bundle
  rw [hvb]
  simp only [Bind.bind, Except.bind, hnf, Bool.false_eq_true, if_false, Option.getD_some]
  rw [hvbe]

/-- C4 counterexample: two commit error messages produce a single appended
issue whose severity is `"fatal"` (diagnostics the stringified list), not
one error-severity issue per message: the outcome ends with exactly two
issues (success plus one exception), where the claim predicts three. -/
theorem c4_counterexample :
    put__bundle ccAllow (fun _ _ => ["boom1", "boom2"]) (some bValid) (some "t") none =
      Except.ok { status_code := 500, entries := some [{ status := "200", outcome := none }],
                  issue := [successIssue,
                    { severity := "fatal", code := "exception",
                      diagnostics := "[\x27boom1\x27, \x27boom2\x27]" }],
                  entriesValidated := true, commitInvoked := true,
                  locationHeader := false } := by rfl

/-- C4 (amended): on the commit path, a non-empty error list overrides the
count-derived status with 500 and appends exactly one fatal issue with code
`"exception"` whose diagnostics is the stringified error list (so it
contains every collaborator message); an empty error list leaves the
count-derived status and the outcome unchanged. -/
theorem c4_commit_error_escalation {canCreate : String → String → CanCreate}
    {po : List BundleEntry → Option String → List String} {b : Body}
    {tok : Option String} {cl : Option Int} {outcome : List Issue}
    {re : List EntryResponse} {rows : List BundleEntry} {pid : Option String}
    (hvb : validate_bundle canCreate (some b) tok cl = Except.ok outcome)
    (hnf : outcome.any (fun i => i.severity == "fatal") = false)
    (hvbe : validate_bundle_entries b = Except.ok (re, rows, pid)) :
    (po rows pid ≠ [] →
      put__bundle canCreate po (some b) tok cl =
        Except.ok
          { status_code := 500, entries := some re,
            issue := outcome ++
              [{ severity := "fatal", code := "exception",
                 diagnostics := pyStrList (po rows pid) }],
            entriesValidated := true, commitInvoked := true,
            locationHeader := false }) ∧
    (po rows pid = [] →
      put__bundle canCreate po (some b) tok cl =
        Except.ok
          { status_code := entryStatusCode re, entries := some re,
            issue := outcome, entriesValidated := true, commitInvoked := true,
            locationHeader := (entryStatusCode re == 201 || entryStatusCode re == 202) }) := by
  have hput := @put__bundle_commit_path canCreate po b tok cl outcome re rows pid hvb hnf hvbe
  constructor
  · intro he
    have hlen : 0 < (po rows pid).length := List.length_pos.mpr he
    rw [hput]
    simp [hlen, exceptionIssue]
  · intro he
    rw [hput]
    simp [he]

/-- C4 (amended) witness: one error message escalates a clean one-entry
bundle to 500 with the single stringified exception issue appended. -/
theorem c4_commit_error_escalation_witness :
    (["boom"] ≠ ([] : List String)) ∧
    put__bundle ccAllow (fun _ _ => ["boom"]) (some bValid) (some "t") none =
      Except.ok { status_code := 500, entries := some [{ status := "200", outcome := none }],
                  issue := [successIssue,
                    { severity := "fatal", code := "exception",
                      diagnostics := "[\x27boom\x27]" }],
                  entriesValidated := true, commitInvoked := true,
                  locationHeader := false } :=
  ⟨by decide,
   (@c4_commit_error_escalation ccAllow (fun _ _ => ["boom"]) bValid (some "t") none
      [successIssue] [{ status := "200", outcome := none }] [validEntry]
      (some "ohsu-test") (by rfl) (by rfl) (by rfl)).1 (by decide)⟩

/-- Shape of the entry loop's answer: one response entry per submitted
entry, in order; its status is `"200"` exactly when the entry passes
validation, else `"422"`; the `"200"` count equals the number of passing
entries. -/
theorem validate_entries_loop_spec (es : List EntryParse) :
    ∀ re rows, validate_entries_loop es = Except.ok (re, rows) →
      re.length = es.length ∧
      re.countP (fun x => x.status == "200") = es.countP entryPasses ∧
      ∀ i (hi : i < es.length) (hj : i < re.length),
        ((re.get ⟨i, hj⟩).status = "200" ↔ entryPasses (es.get ⟨i, hi⟩) = true) ∧
        ((re.get ⟨i, hj⟩).status = "200" ∨ (re.get ⟨i, hj⟩).status = "422") := by
  induction es with
  | nil =>
    intro re rows h
    simp [validate_entries_loop] at h
    obtain ⟨rfl, rfl⟩ := h
    refine ⟨rfl, rfl, ?_⟩
    intro i hi hj
    exact absurd hi (by simp)
  | cons e rest ih =>
    intro re rows h
    unfold validate_entries_loop at h
    cases hie : entryIssue e with
    | error msg =>
      rw [hie] at h
      simp [Bind.bind, Except.bind] at h
    | ok issue? =>
      rw [hie] at h
      cases hrec : validate_entries_loop rest with
      | error msg =>
        rw [hrec] at h
        simp [Bind.bind, Except.bind] at h
      | ok pr =>
        obtain ⟨res, rows2⟩ := pr
        rw [hrec] at h
        obtain ⟨hlen, hcount, hidx⟩ := ih res rows2 hrec
        have hpass : entryPasses e = (issue?.isNone) := by
          unfold entryPasses
          rw [hie]
          cases issue? <;> rfl
        simp only [Bind.bind, Except.bind] at h
        cases issue? with
        | none =>
          have hre : re = { status := "200", outcome := none } :: res := by
            cases e with
            | parsed pe =>
              simp at h
              exact h.1.symm
            | malformed rt i d =>
              simp at h
              exact h.1.symm
          subst hre
          refine ⟨by simp [hlen], ?_, ?_⟩
          · simp [List.countP_cons, hcount, hpass]
          · intro i hi hj
            cases i with
            | zero => simp [List.get, hpass]
            | succ n =>
              have hi2 : n < rest.length := by simpa using hi
              have hj2 : n < res.length := by simpa using hj
              exact hidx n hi2 hj2
        | some iss =>
          have hre : re = { status := "422", outcome := some [iss] } :: res := by
            simp at h
            exact h.1.symm
          subst hre
          refine ⟨by simp [hlen], ?_, ?_⟩
          · simp [List.countP_cons, hcount, hpass]
          · intro i hi hj
            cases i with
            | zero => simp [List.get, hpass]
            | succ n =>
              have hi2 : n < rest.length := by simpa using hi
              have hj2 : n < res.length := by simpa using hj
              exact hidx n hi2 hj2

/-- The non-`"200"` count is the complement of the `"200"` count. -/
theorem countP_ne200_complement (re : List EntryResponse) :
    re.countP (fun x => x.status != "200") =
      re.length - re.countP (fun x => x.status == "200") := by
  induction re with
  | nil => rfl
  | cons a l ih =>
    have hle : l.countP (fun x : EntryResponse => x.status == "200") ≤ l.length :=
      List.countP_le_length _
    by_cases h2 : a.status = "200" <;>
      simp [List.countP_cons, h2, ih] <;>
      omega

/-- All entries valid (the `"200"` count is the length) gives 201. -/
theorem entryStatusCode_created {re : List EntryResponse}
    (h : re.countP (fun x => x.status == "200") = re.length) :
    entryStatusCode re = 201 := by
  unfold entryStatusCode
  have hall := List.countP_eq_length.mp h
  have hany : re.any (fun x => x.status != "200") = false := by
    simp only [List.any_eq_false]
    intro x hx
    simpa using hall x hx
  simp [hany]

/-- A mix of valid and invalid entries gives 202. -/
theorem entryStatusCode_accepted {re : List EntryResponse}
    (h1 : 0 < re.countP (fun x => x.status == "200"))
    (h2 : re.countP (fun x => x.status == "200") < re.length) :
    entryStatusCode re = 202 := by
  unfold entryStatusCode
  obtain ⟨x, hx, hpx⟩ := List.countP_pos_iff.mp h1
  have hany : re.any (fun x => x.status != "200") = true := by
    by_contra hc
    simp only [Bool.not_eq_true, List.any_eq_false] at hc
    have hallv : ∀ y ∈ re, (y.status == "200") = true := by
      intro y hy
      have := hc y hy
      simpa using this
    exact absurd (List.countP_eq_length.mpr hallv) (Nat.ne_of_lt h2)
  have hall : re.all (fun x => x.status != "200") = false := by
    rw [List.all_eq_false]
    exact ⟨x, hx, by simpa using hpx⟩
  simp [hany, hall]

/-- No valid entry (and at least one entry) gives 422. -/
theorem entryStatusCode_unprocessable {re : List EntryResponse}
    (hN : 0 < re.length) (h : re.countP (fun x => x.status == "200") = 0) :
    entryStatusCode re = 422 := by
  unfold entryStatusCode
  have hnone := List.countP_eq_zero.mp h
  obtain ⟨x, hx⟩ := List.exists_mem_of_length_pos hN
  have hany : re.any (fun x => x.status != "200") = true := by
    simp only [List.any_eq_true]
    refine ⟨x, hx, ?_⟩
    simpa using hnone x hx
  have hall : re.all (fun x => x.status != "200") = true := by
    simp only [List.all_eq_true]
    intro y hy
    simpa using hnone y hy
  simp [hany, hall]

/-- C2: on a clean commit path, entry counts decide the aggregate code:
all N entries valid gives 201; a strict mix gives 202 with exactly the
invalid entries carrying a non-`"200"` status; none valid gives 422 —
where an entry is counted valid exactly when it passes entry validation,
position by position. -/
theorem c2_entry_count_resolution {canCreate : String → String → CanCreate}
    {po : List BundleEntry → Option String → List String} {b : Body}
    {tok : Option String} {cl : Option Int} {outcome : List Issue}
    {re : List EntryResponse} {rows : List BundleEntry} {pid : Option String}
    (hvb : validate_bundle canCreate (some b) tok cl = Except.ok outcome)
    (hnf : outcome.any (fun i => i.severity == "fatal") = false)
    (hvbe : validate_bundle_entries b = Except.ok (re, rows, pid))
    (hN : 0 < re.length)
    (hpo : po rows pid = []) :
    ∃ r, put__bundle canCreate po (some b) tok cl = Except.ok r ∧
      r.entries = some re ∧
      re.length = (b.entry.getD []).length ∧
      (∀ i (hi : i < (b.entry.getD []).length) (hj : i < re.length),
        (re.get ⟨i, hj⟩).status = "200" ↔ entryPasses ((b.entry.getD []).get ⟨i, hi⟩) = true) ∧
      (re.countP (fun x => x.status == "200") = re.length → r.status_code = 201) ∧
      (0 < re.countP (fun x => x.status == "200") ∧
          re.countP (fun x => x.status == "200") < re.length →
        r.status_code = 202 ∧
        re.countP (fun x => x.status != "200") =
          re.length - re.countP (fun x => x.status == "200")) ∧
      (re.countP (fun x => x.status == "200") = 0 → r.status_code = 422) := by
  have hloop : validate_entries_loop (b.entry.getD []) = Except.ok (re, rows) := by
    unfold validate_bundle_entries at hvbe
    cases hl : validate_entries_loop (b.entry.getD []) with
    | error m =>
      rw [hl] at hvbe
      simp [Bind.bind, Except.bind] at hvbe
    | ok pr =>
      obtain ⟨re2, rows2⟩ := pr
      rw [hl] at hvbe
      simp only [Bind.bind, Except.bind, Except.ok.injEq, Prod.mk.injEq] at hvbe
      obtain ⟨h1, h2, -⟩ := hvbe
      rw [h1, h2]
  obtain ⟨hlen, hcount, hidx⟩ := validate_entries_loop_spec _ _ _ hloop
  have hput := @put__bundle_commit_path canCreate po b tok cl outcome re rows pid hvb hnf hvbe
  rw [hpo] at hput
  simp only [List.length_nil, gt_iff_lt, Nat.lt_irrefl, if_false, List.append_nil] at hput
  refine ⟨_, hput, rfl, hlen.symm ▸ rfl, ?_, ?_, ?_, ?_⟩
  · intro i hi hj
    exact (hidx i (hlen ▸ hj) hj).1
  · intro h
    exact entryStatusCode_created h
  · intro ⟨h1, h2⟩
    exact ⟨entryStatusCode_accepted h1 h2, countP_ne200_complement re⟩
  · intro h
    exact entryStatusCode_unprocessable hN h

/-- C2 witness: a two-entry bundle with one valid and one invalid entry,
applied to the theorem (the 202 case with exactly one non-`"200"`
entry). -/
theorem c2_entry_count_resolution_witness :
    ∃ r, put__bundle ccAllow (fun _ _ => []) (some bMixed) (some "t") none = Except.ok r ∧
      r.entries = some mixedResponses ∧
      mixedResponses.length = (bMixed.entry.getD []).length ∧
      (∀ i (hi : i < (bMixed.entry.getD []).length) (hj : i < mixedResponses.length),
        (mixedResponses.get ⟨i, hj⟩).status = "200" ↔
          entryPasses ((bMixed.entry.getD []).get ⟨i, hi⟩) = true) ∧
      (mixedResponses.countP (fun x => x.status == "200") = mixedResponses.length →
        r.status_code = 201) ∧
      (0 < mixedResponses.countP (fun x => x.status == "200") ∧
          mixedResponses.countP (fun x => x.status == "200") < mixedResponses.length →
        r.status_code = 202 ∧
        mixedResponses.countP (fun x => x.status != "200") =
          mixedResponses.length - mixedResponses.countP (fun x => x.status == "200")) ∧
      (mixedResponses.countP (fun x => x.status == "200") = 0 → r.status_code = 422) :=
  @c2_entry_count_resolution ccAllow (fun _ _ => []) bMixed (some "t") none
    [successIssue] mixedResponses [validEntry] (some "ohsu-test")
    (by rfl) (by rfl) (by rfl) (by decide) (by rfl)

/-- Well-formed rows drive the staging loop to completion; on the way it
records whether any PUT row was staged. -/
theorem processRowsLoop_ok (rows : List BundleEntry) (hwf : rows.all rowWellFormed = true) :
    ∀ fw vs, ∃ vs2, processRowsLoop rows fw vs = Except.ok (fw || anyPutRow rows, vs2) := by
  induction rows with
  | nil =>
    intro fw vs
    refine ⟨vs, ?_⟩
    simp [processRowsLoop, anyPutRow]
  | cons row rest ih =>
    have hrow : rowWellFormed row = true :=
      (List.all_eq_true.mp hwf) row (List.mem_cons_self _ _)
    have hrest : rest.all rowWellFormed = true := by
      rw [List.all_eq_true]
      intro y hy
      exact (List.all_eq_true.mp hwf) y (List.mem_cons_of_mem _ hy)
    intro fw vs
    unfold rowWellFormed at hrow
    cases hreq : row.request with
    | none =>
      rw [hreq] at hrow
      simp at hrow
    | some req =>
      rw [hreq] at hrow
      by_cases hm : req.method = "PUT"
      · simp only [hm, beq_self_eq_true, if_true] at hrow
        obtain ⟨r, hr⟩ := Option.isSome_iff_exists.mp hrow
        obtain ⟨vs2, heq⟩ := ih hrest true vs
        refine ⟨vs2, ?_⟩
        simp only [processRowsLoop, hreq, hm, if_true, hr, heq]
        simp [anyPutRow, hreq, hm]
      · by_cases hd : req.method = "DELETE"
        · simp only [hm, hd] at hrow
          simp only [show ("DELETE" == "PUT") = false from rfl, Bool.false_eq_true,
            if_false, beq_self_eq_true, if_true] at hrow
          cases hurl : req.url with
          | none =>
            rw [hurl] at hrow
            simp at hrow
          | some u =>
            rw [hurl] at hrow
            have hlen : 1 < (pySplit u '/').length := by
              have := of_decide_eq_true hrow
              omega
            obtain ⟨vs2, heq⟩ := ih hrest fw (vs ++ [(pySplit u '/')[1]])
            refine ⟨vs2, ?_⟩
            simp only [processRowsLoop, hreq, hm, if_false, hd, if_true, hurl]
            rw [List.getElem?_eq_getElem hlen]
            simp only [heq]
            have hput0 : (req.method == "PUT") = false := beq_eq_false_iff_ne.mpr hm
            simp [anyPutRow, hreq, hput0]
        · obtain ⟨vs2, heq⟩ := ih hrest fw vs
          refine ⟨vs2, ?_⟩
          simp only [processRowsLoop, hreq, hm, hd, if_false, heq]
          have hput0 : (req.method == "PUT") = false := beq_eq_false_iff_ne.mpr hm
          simp [anyPutRow, hreq, hput0]

/-- C5 counterexample: `process` raises on a malformed DELETE row — a url
without `/` makes `url.split("/")[1]` an `IndexError` — even with every
collaborator succeeding and the environment configured. -/
theorem c5_counterexample :
    process envSet bdOk blOk riOk [badDeleteRow] (some "aced-test") none =
      Except.error "IndexError: list index out of range" := by rfl

/-- C5 (amended): with the grip environment variables set, every row
well-formed (PUT rows carry a resource, DELETE urls contain `/`) and a
two-segment project id whenever a PUT row exists, `process` always
returns: backend non-success statuses only append messages; and with no
PUT and no DELETE entries it returns the empty error list when the
reindex block raises nothing. -/
theorem c5_process_totality {env : Env}
    {bd : String → String → Option String → List String → CollabResult}
    {bl : String → String → Option String → CollabResult}
    {ri : Option String → Option (String × String)}
    {rows : List BundleEntry} {pid : Option String} {tok : Option String}
    (hg : env.gripGraphName.isSome = true) (hs : env.gripServiceName.isSome = true)
    (hwf : rows.all rowWellFormed = true)
    (hpid : anyPutRow rows = true → projectIdWellFormed pid = true) :
    (∃ errs, process env bd bl ri rows pid tok = Except.ok errs) ∧
    (rows = [] → ri pid = none → process env bd bl ri rows pid tok = Except.ok []) := by
  obtain ⟨g, hg'⟩ := Option.isSome_iff_exists.mp hg
  obtain ⟨s, hs'⟩ := Option.isSome_iff_exists.mp hs
  obtain ⟨vs2, hloop⟩ := processRowsLoop_ok rows hwf false []
  have hgg : getGripGraphName env = Except.ok g := by simp [getGripGraphName, hg']
  have hgs : getGripServiceName env = Except.ok s := by simp [getGripServiceName, hs']
  constructor
  · unfold process
    rw [hgg]
    simp only [Bind.bind, Except.bind]
    rw [hloop]
    simp only [Bool.false_or]
    by_cases hput : anyPutRow rows = true
    · have hpw := hpid hput
      unfold projectIdWellFormed at hpw
      cases hp : pid with
      | none =>
        rw [hp] at hpw
        simp at hpw
      | some p =>
        rw [hp] at hpw
        have hplen : ¬ (pySplit p '-').length ≠ 2 := by
          have := of_decide_eq_true hpw
          omega
        by_cases hv : vs2.length > 0 <;>
          simp [hput, hp, hgs, hv, hplen, Bind.bind, Except.bind] <;>
          exact ⟨_, rfl⟩
    · have hput' : anyPutRow rows = false := by
        simpa using hput
      rw [hput']
      by_cases hv : vs2.length > 0 <;>
        simp [hgs, hv, Bind.bind, Except.bind] <;>
        exact ⟨_, rfl⟩
  · intro hrows hri
    subst hrows
    unfold process
    rw [hgg]
    simp [processRowsLoop, Bind.bind, Except.bind, Pure.pure, Except.pure, hri]

/-- C5 (amended) witness: empty input with a quiet reindex block returns
the empty error list. -/
theorem c5_process_totality_witness :
    (([] : List BundleEntry).all rowWellFormed = true) ∧
    process envSet bdOk blOk riOk [] (some "a-b") none = Except.ok [] :=
  ⟨rfl,
   (@c5_process_totality envSet bdOk blOk riOk [] (some "a-b") none
      rfl rfl rfl (fun _ => rfl)).2 rfl rfl⟩

end BundleService
